import Mathlib

/-!
Verification of `convert_icon.py` from the nucleotide repository.

The script is a static reporter: it holds a constant table `sizes` of
(pixel-dimension, filename) pairs for a macOS iconset and prints a fixed
sequence of instructional lines to standard output.  We embed the table,
the per-entry formatting (the f-string in the loop body), and the full
printed line sequence, then prove the spec's claims about them.
-/

namespace ConvertIcon

/-- The constant size table, transcribed verbatim from `sizes` in
`convert_icon.py` (lines 8–19): each element pairs a pixel dimension with
the conventional iconset filename. -/
def sizes : List (Nat × String) :=
  [(16, "icon_16x16.png"),
   (32, "icon_16x16@2x.png"),
   (32, "icon_32x32.png"),
   (64, "icon_32x32@2x.png"),
   (128, "icon_128x128.png"),
   (256, "icon_128x128@2x.png"),
   (256, "icon_256x256.png"),
   (512, "icon_256x256@2x.png"),
   (512, "icon_512x512.png"),
   (1024, "icon_512x512@2x.png")]

/-- The loop body's f-string: for a table entry `(size, filename)` the
script prints a line reading, dash, space, the filename, colon, space,
the size, letter x, the size, space, and the word pixels. -/
def entryLine (p : Nat × String) : String :=
  "- " ++ p.2 ++ ": " ++ toString p.1 ++ "x" ++ toString p.1 ++ " pixels"

/-- The complete sequence of lines the script writes to standard output,
one list element per `print` call (a bare `print()` is the empty line),
in program order: six preamble lines, the loop over `sizes`, then the
blank line and the two closing instructions. -/
def output : List String :=
  ["Note: This script requires librsvg (rsvg-convert) to be installed.",
   "You can install it with: brew install librsvg",
   "",
   "Alternatively, you can use an online converter or image editing software",
   "to create PNG files at these sizes:",
   ""]
  ++ sizes.map entryLine ++
  ["",
   "Place the PNG files in assets/helix-gpui.iconset/",
   "Then run: iconutil -c icns assets/helix-gpui.iconset -o assets/helix-gpui.icns"]

/-- The five logical iconset sizes, each of which appears in `sizes` at
1x and at 2x scale. -/
def logicalSizes : List Nat := [16, 32, 128, 256, 512]

/-- The iconset filename convention: `icon_<l>x<l>.png` for the 1x
rendition of logical size `l`, with `@2x` inserted before the extension
for the 2x rendition. -/
def iconName (l : Nat) (twoX : Bool) : String :=
  "icon_" ++ toString l ++ "x" ++ toString l ++ (if twoX then "@2x" else "") ++ ".png"

/-- The script as a function of its invocation context.  The source never
reads `sys.argv`, environment variables, time, or randomness (the
`subprocess` and `os` imports are unused), so the run ignores both
parameters and always emits `output`. -/
def run (_args : List String) (_env : List (String × String)) : List String :=
  output

/-- The script's overall result.  The body is a straight line of `print`
calls with no operation that can raise, so every invocation completes
normally; a Python script that falls off the end of the module exits
with status 0. -/
def runMain (_args : List String) : Except String (List String) :=
  Except.ok output

/-- Process exit status of a run result: 0 on normal completion, 1 had
any exception escaped. -/
def exitCode (r : Except String (List String)) : Nat :=
  match r with
  | Except.ok _ => 0
  | Except.error _ => 1

/-- C1: the emitted size/filename list is exactly these 10 lines, one per
table entry, in fixed order, pairing dimensions 16, 32, 32, 64, 128, 256,
256, 512, 512, 1024 with the ten conventional filenames; and this list is
precisely what `output` carries after its six preamble lines. -/
theorem emitted_list_exact :
    sizes.map entryLine =
      ["- icon_16x16.png: 16x16 pixels",
       "- icon_16x16@2x.png: 32x32 pixels",
       "- icon_32x32.png: 32x32 pixels",
       "- icon_32x32@2x.png: 64x64 pixels",
       "- icon_128x128.png: 128x128 pixels",
       "- icon_128x128@2x.png: 256x256 pixels",
       "- icon_256x256.png: 256x256 pixels",
       "- icon_256x256@2x.png: 512x512 pixels",
       "- icon_512x512.png: 512x512 pixels",
       "- icon_512x512@2x.png: 1024x1024 pixels"] ∧
    (sizes.map entryLine).length = 10 ∧
    (output.drop 6).take 10 = sizes.map entryLine := by
  refine ⟨by decide, by decide, by decide⟩

/-- C2: for the `i`-th table entry `(s, f)` the program emits, at output
position `6 + i` (in table order), the line dash-space `f` colon-space
`s` x `s` space pixels, and that line occurs exactly once in the whole
output. -/
theorem per_entry_line_form (i : Nat) (h : i < sizes.length) :
    ∃ s f, sizes.get? i = some (s, f) ∧
      output.get? (6 + i) =
        some ("- " ++ f ++ ": " ++ toString s ++ "x" ++ toString s ++ " pixels") ∧
      output.count ("- " ++ f ++ ": " ++ toString s ++ "x" ++ toString s ++ " pixels") = 1 := by
  have hb : i < 10 := by simpa [sizes] using h
  interval_cases i <;> exact ⟨_, _, rfl, by decide, by decide⟩

/-- Witness for C2 at the first table entry. -/
theorem per_entry_line_form_witness :
    ∃ s f, sizes.get? 0 = some (s, f) ∧
      output.get? 6 =
        some ("- " ++ f ++ ": " ++ toString s ++ "x" ++ toString s ++ " pixels") ∧
      output.count ("- " ++ f ++ ": " ++ toString s ++ "x" ++ toString s ++ " pixels") = 1 :=
  per_entry_line_form 0 (by decide)

/-- C3: the full output is the single fixed 19-line sequence: tool notice
and install suggestion, blank, two-line manual alternative notice, blank,
the ten per-entry lines, blank, the destination-directory instruction,
and the follow-up iconutil command. -/
theorem full_output_fixed :
    output =
      ["Note: This script requires librsvg (rsvg-convert) to be installed.",
       "You can install it with: brew install librsvg",
       "",
       "Alternatively, you can use an online converter or image editing software",
       "to create PNG files at these sizes:",
       "",
       "- icon_16x16.png: 16x16 pixels",
       "- icon_16x16@2x.png: 32x32 pixels",
       "- icon_32x32.png: 32x32 pixels",
       "- icon_32x32@2x.png: 64x64 pixels",
       "- icon_128x128.png: 128x128 pixels",
       "- icon_128x128@2x.png: 256x256 pixels",
       "- icon_256x256.png: 256x256 pixels",
       "- icon_256x256@2x.png: 512x512 pixels",
       "- icon_512x512.png: 512x512 pixels",
       "- icon_512x512@2x.png: 1024x1024 pixels",
       "",
       "Place the PNG files in assets/helix-gpui.iconset/",
       "Then run: iconutil -c icns assets/helix-gpui.iconset -o assets/helix-gpui.icns"] := by
  decide

/-- C4: the table has exactly ten entries, covering the five logical
sizes 16, 32, 128, 256, 512 each at 1x and 2x scale, in ascending logical
size with the 1x entry immediately before its 2x entry; being a plain
constant, nothing in the straight-line script can mutate it. -/
theorem table_structure :
    sizes.length = 10 ∧
    logicalSizes = [16, 32, 128, 256, 512] ∧
    List.Pairwise (· < ·) logicalSizes ∧
    sizes = (logicalSizes.map (fun l => [(l, iconName l false), (2 * l, iconName l true)])).flatten := by
  refine ⟨by decide, by decide, by decide, by decide⟩

/-- C5: the run is deterministic — any two invocations, whatever their
arguments and environment, write the identical line sequence, since the
script reads no input, environment, time, or randomness. -/
theorem deterministic (a₁ a₂ : List String) (e₁ e₂ : List (String × String)) :
    run a₁ e₁ = run a₂ e₂ :=
  rfl

/-- C6: the program has no failure path — every invocation, regardless of
arguments, completes normally with the fixed output and exit status 0. -/
theorem always_succeeds (args : List String) :
    runMain args = Except.ok output ∧ exitCode (runMain args) = 0 :=
  ⟨rfl, rfl⟩

/-- C7: the output contains the literal line for the 16x16 2x entry and
closes with the literal line instructing the user to run iconutil against
the iconset directory. -/
theorem end_to_end_literals :
    "- icon_16x16@2x.png: 32x32 pixels" ∈ output ∧
    output.getLast? =
      some "Then run: iconutil -c icns assets/helix-gpui.iconset -o assets/helix-gpui.icns" := by
  decide

/-- C8: every filename in the table is `icon_<l>x<l>.png` or
`icon_<l>x<l>@2x.png` for some logical size `l` in 16, 32, 128, 256, 512,
where `iconName` uses the same `l` for both occurrences. -/
theorem filename_pattern (p : Nat × String) (hp : p ∈ sizes) :
    ∃ l ∈ logicalSizes, p.2 = iconName l false ∨ p.2 = iconName l true := by
  fin_cases hp <;> decide

/-- Witness for C8 at the first table entry. -/
theorem filename_pattern_witness :
    ∃ l ∈ logicalSizes,
      ((16, "icon_16x16.png") : Nat × String).2 = iconName l false ∨
      ((16, "icon_16x16.png") : Nat × String).2 = iconName l true :=
  filename_pattern (16, "icon_16x16.png") (by decide)

/-- C9: each entry's dimension is determined by its filename — every
entry is `icon_<s>x<s>.png` with dimension `s` or `icon_<s>x<s>@2x.png`
with dimension `2 * s` for a unique logical size `s` (`iconName` is
injective in the size over the logical sizes at either scale). -/
theorem dimension_from_filename :
    (∀ p ∈ sizes, ∃ s ∈ logicalSizes,
        (p.2 = iconName s false ∧ p.1 = s) ∨ (p.2 = iconName s true ∧ p.1 = 2 * s)) ∧
    (∀ s ∈ logicalSizes, ∀ t ∈ logicalSizes, ∀ b : Bool, iconName s b = iconName t b → s = t) := by
  refine ⟨by decide, by decide⟩

/-- C10: the destination directory named in the output is exactly
`assets/helix-gpui.iconset/`, the closing follow-up command is exactly
`iconutil -c icns assets/helix-gpui.iconset -o assets/helix-gpui.icns`,
and every run emits these same literals. -/
theorem closing_literals_fixed (args : List String) (env : List (String × String)) :
    output.get? 17 = some "Place the PNG files in assets/helix-gpui.iconset/" ∧
    output.get? 18 =
      some "Then run: iconutil -c icns assets/helix-gpui.iconset -o assets/helix-gpui.icns" ∧
    run args env = output := by
  exact ⟨by decide, by decide, rfl⟩

end ConvertIcon
